import Mathlib

/- Verification development for the IR & OCV Testing Recorder
   (src/IR_OCV_Recorderr.py).  The session data model, the validation and
   buffering logic of save_module_data, the navigation handlers, the workbook
   exporter write_to_excel and the workbook loader load_workbook are embedded
   shallowly below; the worksheet model follows openpyxl semantics (clearing a
   cell value keeps the cell and the sheet dimensions; ws.append adds rows at
   the bottom of the retained grid) and the pandas reads go against the on-disk
   file state, exactly as the program does. -/

namespace IROCV

instance {ε α : Type} [DecidableEq ε] [DecidableEq α] : DecidableEq (Except ε α) := fun a b =>
  match a, b with
  | .error e, .error f =>
    if h : e = f then .isTrue (congrArg Except.error h)
    else .isFalse (fun hh => h (Except.error.inj hh))
  | .ok x, .ok y =>
    if h : x = y then .isTrue (congrArg Except.ok h)
    else .isFalse (fun hh => h (Except.ok.inj hh))
  | .error _, .ok _ => .isFalse (fun hh => Except.noConfusion hh)
  | .ok _, .error _ => .isFalse (fun hh => Except.noConfusion hh)

/- ===== kernel-computable string and number helpers, modelling the Python
   string operations the program uses ===== -/

def digitChar (n : Nat) : Char := Char.ofNat (48 + n)

def digitsAux : Nat → Nat → List Char
  | 0, _ => []
  | fuel + 1, n => if n = 0 then [] else digitsAux fuel (n / 10) ++ [digitChar (n % 10)]

/-- Decimal rendering of a natural number, as Python `str`. -/
def natStr (n : Nat) : String := if n = 0 then "0" else ⟨digitsAux n n⟩

/-- Decimal rendering of an integer, as Python `str`. -/
def intStr (n : Int) : String := if n < 0 then "-" ++ natStr n.natAbs else natStr n.natAbs

/-- Python `f"{n:03d}"`: zero-pad to at least three digits. -/
def pad3 (n : Nat) : String :=
  let s := natStr n
  ⟨List.replicate (3 - s.data.length) '0' ++ s.data⟩

/-- Python `s.startswith(p)`. -/
def strStarts (p s : String) : Bool := p.data.isPrefixOf s.data

def digit? (c : Char) : Option Nat :=
  if 48 ≤ c.toNat ∧ c.toNat ≤ 57 then some (c.toNat - 48) else none

def parseNatAux : List Char → Nat → Option Nat
  | [], acc => some acc
  | c :: t, acc =>
    match digit? c with
    | some d => parseNatAux t (acc * 10 + d)
    | none => none

/-- Python `int(s)` on the strings this program feeds it (`none` models the
`ValueError` raised on non-numeric text or the empty string). -/
def parseInt? (s : String) : Option Int :=
  match s.data with
  | [] => none
  | '-' :: t => if t = [] then none else (parseNatAux t 0).map (fun n => -(n : Int))
  | c :: t => (parseNatAux (c :: t) 0).map (fun n => (n : Int))

def afterUnderscore : List Char → Option (List Char)
  | [] => none
  | '_' :: t => some t
  | _ :: t => afterUnderscore t

/-- Python `s.split('_')[1]`: the segment between the first and the second
underscore (`none` models the `IndexError` when there is no underscore). -/
def secondSeg (s : String) : Option String :=
  (afterUnderscore s.data).map (fun t => ⟨t.takeWhile (fun c => c != '_')⟩)

def strLtB : List Char → List Char → Bool
  | [], [] => false
  | [], _ :: _ => true
  | _ :: _, [] => false
  | a :: as, b :: bs =>
    if a.toNat < b.toNat then true else if b.toNat < a.toNat then false else strLtB as bs

def insertName (x : String) : List String → List String
  | [] => [x]
  | y :: t => if strLtB x.data y.data then x :: y :: t else y :: insertName x t

/-- Python `sorted` on sheet names (lexicographic by code point). -/
def sortNames (l : List String) : List String := l.foldr insertName []

/-- Python `",".join(l)`. -/
def joinComma : List String → String
  | [] => ""
  | [a] => a
  | a :: b :: t => a ++ "," ++ joinComma (b :: t)

/-- openpyxl `get_column_letter` for the single-letter columns (1..26) this
program ever passes to it. -/
def colLetter (n : Nat) : String := ⟨[Char.ofNat (64 + n)]⟩

/- ===== exact rational values of the decimal numerals in the analysed
   scenarios; at every boundary the claims mention, Python float comparison
   agrees with comparison of these exact values ===== -/

/-- The numeral 12.5. -/
def q12_5 : ℚ := ⟨25, 2, by norm_num, by norm_num⟩

/-- The numeral 3.70. -/
def q3_7 : ℚ := ⟨37, 10, by norm_num, by norm_num⟩

/-- The numeral 13.1. -/
def q13_1 : ℚ := ⟨131, 10, by norm_num, by norm_num⟩

/-- The numeral 3.65. -/
def q3_65 : ℚ := ⟨73, 20, by norm_num, by norm_num⟩

/-- The numeral 0.0001. -/
def q0_0001 : ℚ := ⟨1, 10000, by norm_num, by norm_num⟩

/-- The numeral -0.01. -/
def qm0_01 : ℚ := ⟨-1, 100, by norm_num, by norm_num⟩

/-- The numeral 6.01. -/
def q6_01 : ℚ := ⟨601, 100, by norm_num, by norm_num⟩

/- ===== worksheet and workbook model ===== -/

/-- A value stored in a worksheet cell: string (formulas included), integer, or
numeric. -/
inductive XVal where
  | s (v : String)
  | i (v : Int)
  | q (v : ℚ)
deriving DecidableEq, Repr

/-- A cell: `none` is an empty or cleared cell. -/
abbrev Cell := Option XVal

/-- Worksheet model: `rows` is the retained cell grid, row 1 first.  Clearing a
value keeps the cell in place (value `none`), matching openpyxl where a value
clear preserves the cell and hence the sheet dimensions and the append
position. -/
structure Sheet where
  rows : List (List Cell)
deriving DecidableEq, Repr

def Sheet.maxRow (sh : Sheet) : Nat := max 1 sh.rows.length

def Sheet.maxCol (sh : Sheet) : Nat := max 1 (sh.rows.foldl (fun a r => max a r.length) 0)

/-- Lines 449-451: `for row in ws.iter_rows(): for cell in row: cell.value = None`. -/
def Sheet.clearValues (sh : Sheet) : Sheet :=
  ⟨sh.rows.map (fun r => r.map (fun _ => (none : Cell)))⟩

/-- The value of the cell at (row, column), 1-based. -/
def Sheet.cellAt (sh : Sheet) (r c : Nat) : Cell := (sh.rows.getD (r - 1) []).getD (c - 1) none

structure Workbook where
  sheets : List (String × Sheet)
deriving DecidableEq, Repr

def Workbook.sheetNames (wb : Workbook) : List String := wb.sheets.map (fun p => p.1)

def Workbook.get? (wb : Workbook) (n : String) : Option Sheet :=
  (wb.sheets.find? (fun p => p.1 == n)).map (fun p => p.2)

def Workbook.hasSheet (wb : Workbook) (n : String) : Bool := (wb.get? n).isSome

/-- Lines 446-463: if the module sheet exists, clear its values and `ws.append`
the new rows (openpyxl appends below the retained grid); otherwise create the
sheet (at the end of the workbook) and append into it. -/
def writeModuleSheet (wb : Workbook) (n : String) (newRows : List (List Cell)) : Workbook :=
  match wb.get? n with
  | some _ =>
    ⟨wb.sheets.map (fun p => if p.1 == n then (p.1, ⟨p.2.clearValues.rows ++ newRows⟩) else p)⟩
  | none => ⟨wb.sheets ++ [(n, ⟨newRows⟩)]⟩

/- ===== session data model (lines 38-47) ===== -/

/-- A raw IR or OCV entry field as it comes out of the table widget: empty
string, a numeric literal, or non-numeric junk text. -/
inductive FieldVal where
  | empty
  | num (q : ℚ)
  | junk
deriving DecidableEq, Repr

/-- Lines 364-365: `float(s) if s else None`; the `.error` case models the
`ValueError` raised by `float` on non-numeric text. -/
def parseField : FieldVal → Except Unit (Option ℚ)
  | .empty => .ok none
  | .num q => .ok (some q)
  | .junk => .error ()

/-- One row of the cell-entry table as handed to save_module_data. -/
structure CellRowIn where
  cellIndex : Nat
  batteryCode : String
  irStr : FieldVal
  ocvStr : FieldVal
  notes : String
deriving DecidableEq, Repr

/-- One row of a buffered module dataframe (lines 377-404): the denormalized
flat record that is later exported. -/
structure DataRow where
  timestamp : String
  packName : String
  packCode : String
  moduleIndex : Nat
  moduleCode : String
  cellIndex : Nat
  batteryCode : String
  ir : Option ℚ
  ocv : Option ℚ
  notes : String
deriving DecidableEq, Repr

/-- Lines 406-409: the per-module buffer entry. -/
structure ModuleRecord where
  module_code : String
  dataframe : List DataRow
deriving DecidableEq, Repr

/-- The session dictionary (lines 38-47); `filename` is modelled by the
`Option Workbook` disk state threaded through the exporter, and `module_data`
as an association list in Python dict insertion order. -/
structure SessionModel where
  pack_name : String
  pack_code : String
  num_modules : Nat
  cells_per_module : Nat
  modules_completed : Nat
  current_module_index : Nat
  module_data : List (Nat × ModuleRecord)
deriving DecidableEq, Repr

/-- Line 50. -/
def OCV_MIN : ℚ := 0

/-- Line 51. -/
def OCV_MAX : ℚ := 6

/-- The three validation failures of save_module_data, each carrying the
cell index named in the corresponding messagebox text. -/
inductive ValErr where
  | invalidNumber (cellIndex : Nat)
  | irNotPositive (cellIndex : Nat)
  | ocvOutOfRange (cellIndex : Nat)
deriving DecidableEq, Repr

def ValErr.cellIndex : ValErr → Nat
  | .invalidNumber i => i
  | .irNotPositive i => i
  | .ocvOutOfRange i => i

/-- Line 367: `ir is not None and ir <= 0`. -/
def irBad : Option ℚ → Bool
  | none => false
  | some v => decide (v ≤ 0)

/-- Line 372: `ocv is not None and not (OCV_MIN <= ocv <= OCV_MAX)`. -/
def ocvBad : Option ℚ → Bool
  | none => false
  | some v => !(decide (OCV_MIN ≤ v) && decide (v ≤ OCV_MAX))

/-- Lines 363-392 for a single table row: parse both fields (a `ValueError`
from either gives the generic invalid-number error), then check IR > 0, then
the OCV range. -/
def validateCell (r : CellRowIn) : Except ValErr (Option ℚ × Option ℚ) :=
  match parseField r.irStr with
  | .error _ => .error (.invalidNumber r.cellIndex)
  | .ok ir =>
    match parseField r.ocvStr with
    | .error _ => .error (.invalidNumber r.cellIndex)
    | .ok ocv =>
      if irBad ir then .error (.irNotPositive r.cellIndex)
      else if ocvBad ocv then .error (.ocvOutOfRange r.cellIndex)
      else .ok (ir, ocv)

/-- Lines 377-388: the flat row appended on success, stamped with the capture
instant `now` and the denormalized pack and module fields. -/
def mkDataRow (s : SessionModel) (now mcode : String) (r : CellRowIn) (ir ocv : Option ℚ) :
    DataRow :=
  ⟨now, s.pack_name, s.pack_code, s.current_module_index, mcode, r.cellIndex, r.batteryCode,
   ir, ocv, r.notes⟩

/-- The validation loop of save_module_data (lines 354-399): fail fast at the
first offending row, otherwise produce the full list of stamped rows. -/
def buildRows (s : SessionModel) (now mcode : String) :
    List CellRowIn → Except ValErr (List DataRow)
  | [] => .ok []
  | r :: t =>
    match validateCell r with
    | .error e => .error e
    | .ok v =>
      match buildRows s now mcode t with
      | .error e => .error e
      | .ok rest => .ok (mkDataRow s now mcode r v.1 v.2 :: rest)

/-- The module code entry plus the table rows handed to save_module_data. -/
structure SaveInput where
  moduleCode : String
  rows : List CellRowIn
deriving DecidableEq, Repr

/-- Python dict assignment `d[k] = v`: replace in place if the key exists,
append otherwise. -/
def dictSet (l : List (Nat × ModuleRecord)) (k : Nat) (v : ModuleRecord) :
    List (Nat × ModuleRecord) :=
  if l.any (fun p => p.1 == k) then l.map (fun p => if p.1 == k then (k, v) else p)
  else l ++ [(k, v)]

/-- Line 360: any row with an empty battery code. -/
def hasMissingCodes (rows : List CellRowIn) : Bool := rows.any (fun r => r.batteryCode == "")

/-- save_module_data with silent=True (lines 347-416): validate and, on
success, replace the whole module record for the current index; no export and
no missing-code prompt on this path.  Returns the (unchanged on failure)
session together with the validation error, if any. -/
def saveModuleDataS (s : SessionModel) (now : String) (inp : SaveInput) :
    SessionModel × Option ValErr :=
  match buildRows s now inp.moduleCode inp.rows with
  | .error e => (s, some e)
  | .ok rows =>
    ({s with module_data :=
        dictSet s.module_data s.current_module_index ⟨inp.moduleCode, rows⟩}, none)

/-- prev_module (lines 314-320): guarded by index > 1; buffers silently (the
return value of the silent save is ignored), then decrements the index. -/
def prevModule (s : SessionModel) (now : String) (inp : SaveInput) : SessionModel :=
  if 1 < s.current_module_index then
    let s1 := (saveModuleDataS s now inp).1
    {s1 with current_module_index := s1.current_module_index - 1}
  else s

/-- next_module (lines 322-328): guarded by index < num_modules; buffers
silently (result ignored), then increments the index. -/
def nextModule (s : SessionModel) (now : String) (inp : SaveInput) : SessionModel :=
  if s.current_module_index < s.num_modules then
    let s1 := (saveModuleDataS s now inp).1
    {s1 with current_module_index := s1.current_module_index + 1}
  else s

/-- start_new_session / validate_pack_setup (lines 103-187): a fresh session
requires non-empty name and code and positive integer counts, and starts at
module 1 with an empty buffer. -/
def initializePack (name code : String) (nm cpm : Int) : Option SessionModel :=
  if name = "" ∨ code = "" ∨ nm ≤ 0 ∨ cpm ≤ 0 then none
  else some ⟨name, code, nm.toNat, cpm.toNat, 0, 1, []⟩

/-- The session invariant stated in the spec: current_module_index within
[1, num_modules] and module_data keys a subset of [1, num_modules]. -/
def SessionInv (s : SessionModel) : Prop :=
  1 ≤ s.current_module_index ∧ s.current_module_index ≤ s.num_modules ∧
  ∀ p ∈ s.module_data, 1 ≤ p.1 ∧ p.1 ≤ s.num_modules

/- ===== workbook exporter: write_to_excel (lines 431-565) ===== -/

/-- A pandas dataframe as produced by `pd.read_excel`: a header row and the
data rows below it. -/
structure DF where
  header : List Cell
  data : List (List Cell)
deriving DecidableEq, Repr

/-- `pd.read_excel(filename, sheet_name=n)` against the on-disk file state:
fails when the file does not exist (FileNotFoundError) or lacks the sheet;
otherwise the first row of the stored range is the header and the rest the
data (leading rows that were fully cleared do not survive a save to disk, so
the stored range starts at the first row holding a cell). -/
def readExcelDisk (disk : Option Workbook) (n : String) : Except String DF :=
  match disk with
  | none => .error "FileNotFoundError"
  | some wb =>
    match wb.get? n with
    | none => .error "ValueError: no sheet"
    | some sh =>
      match sh.rows.dropWhile (fun r => r.all (fun c => c.isNone)) with
      | [] => .ok ⟨[], []⟩
      | h :: t => .ok ⟨h, t⟩

/-- Lines 401-403: the dataframe column names, i.e. the header row written to
every module sheet. -/
def moduleHeaderCells : List Cell :=
  [some (.s "Timestamp"), some (.s "PackName"), some (.s "PackCode"), some (.s "ModuleIndex"),
   some (.s "ModuleCode"), some (.s "CellIndex"), some (.s "BatteryCode"), some (.s "IR_mOhm"),
   some (.s "OCV_V"), some (.s "Notes")]

/-- A buffered dataframe row as one appended worksheet row. -/
def DataRow.toCells (r : DataRow) : List Cell :=
  [some (.s r.timestamp), some (.s r.packName), some (.s r.packCode),
   some (.i (r.moduleIndex : Int)), some (.s r.moduleCode), some (.i (r.cellIndex : Int)),
   some (.s r.batteryCode), r.ir.map .q, r.ocv.map .q, some (.s r.notes)]

/-- Line 495: the summary sheet header. -/
def summaryHeaderCells : List Cell :=
  [some (.s "ModuleIndex"), some (.s "ModuleCode"), some (.s "CellCount"), some (.s "IR_AVG"),
   some (.s "IR_MAX"), some (.s "IR_MIN"), some (.s "IR_RANGE"), some (.s "OCV_AVG"),
   some (.s "OCV_MAX"), some (.s "OCV_MIN"), some (.s "OCV_RANGE")]

/-- The position of a named column in a dataframe header. -/
def colIdx (header : List Cell) (n : String) : Option Nat :=
  header.findIdx? (fun c => c == some (.s n))

/-- Lines 502-530, one module sheet: build the IR and OCV column ranges from
the in-memory sheet geometry, but recover module_code and cell count by
re-reading the sheet from the on-disk file (which has not been saved yet at
this point of write_to_excel).  Returns the summary row together with the two
ranges collected for the PACK_TOTALS formulas. -/
def summaryModuleRow (disk : Option Workbook) (wb : Workbook) (i : Nat) (n : String) :
    Except String (List Cell × String × String) := do
  let sh := (wb.get? n).getD ⟨[]⟩
  let irL := colLetter (sh.maxCol - 2)
  let ocvL := colLetter (sh.maxCol - 1)
  let irRange := n ++ "!" ++ irL ++ "2:" ++ irL ++ natStr sh.maxRow
  let ocvRange := n ++ "!" ++ ocvL ++ "2:" ++ ocvL ++ natStr sh.maxRow
  let df ← readExcelDisk disk n
  let mcode : Cell ←
    match df.data with
    | [] => pure (some (.s "N/A"))
    | r0 :: _ =>
      match colIdx df.header "ModuleCode" with
      | none => Except.error "KeyError: ModuleCode"
      | some j => pure (r0.getD j none)
  let midx ←
    match (secondSeg n).bind parseInt? with
    | none => Except.error "ValueError: int"
    | some v => pure v
  let rn := natStr (i + 2)
  pure ([some (.i midx), mcode, some (.i (df.data.length : Int)),
         some (.s ("=AVERAGE(" ++ irRange ++ ")")),
         some (.s ("=MAX(" ++ irRange ++ ")")),
         some (.s ("=MIN(" ++ irRange ++ ")")),
         some (.s ("=E" ++ rn ++ "-F" ++ rn)),
         some (.s ("=AVERAGE(" ++ ocvRange ++ ")")),
         some (.s ("=MAX(" ++ ocvRange ++ ")")),
         some (.s ("=MIN(" ++ ocvRange ++ ")")),
         some (.s ("=I" ++ rn ++ "-J" ++ rn))], irRange, ocvRange)

/-- Lines 532-543: the bold PACK_TOTALS row (column B gets no cell). -/
def totalsRow (k : Nat) (allIr allOcv : List String) : List Cell :=
  let fr := natStr (k + 2)
  [some (.s "PACK_TOTALS"), none,
   some (.s ("=SUM(C2:C" ++ natStr (k + 1) ++ ")")),
   some (.s ("=AVERAGE(" ++ joinComma allIr ++ ")")),
   some (.s ("=MAX(" ++ joinComma allIr ++ ")")),
   some (.s ("=MIN(" ++ joinComma allIr ++ ")")),
   some (.s ("=E" ++ fr ++ "-F" ++ fr)),
   some (.s ("=AVERAGE(" ++ joinComma allOcv ++ ")")),
   some (.s ("=MAX(" ++ joinComma allOcv ++ ")")),
   some (.s ("=MIN(" ++ joinComma allOcv ++ ")")),
   some (.s ("=I" ++ fr ++ "-J" ++ fr))]

/-- write_to_excel (lines 431-561) up to and including `wb.save`: load the
existing file or create a fresh workbook, rewrite every buffered module sheet,
delete and rebuild the Summary sheet at position 0 (its per-module figures
re-read from the still unsaved on-disk file), and return the workbook that
`wb.save` writes.  Any exception aborts the whole persist. -/
def writeToExcelCore (s : SessionModel) (disk : Option Workbook) : Except String Workbook := do
  let wb0 : Workbook := match disk with
    | some w => w
    | none => ⟨[]⟩
  let wb1 := s.module_data.foldl
    (fun wb p => writeModuleSheet wb ("Module_" ++ pad3 p.1)
      (moduleHeaderCells :: p.2.dataframe.map DataRow.toCells)) wb0
  let wb2 : Workbook :=
    ⟨("Summary", (⟨[]⟩ : Sheet)) :: wb1.sheets.filter (fun p => p.1 != "Summary")⟩
  let names := sortNames (wb2.sheetNames.filter (fun n => strStarts "Module_" n))
  let triples ← names.enum.mapM (fun q => summaryModuleRow disk wb2 q.1 q.2)
  let summary : Sheet :=
    ⟨summaryHeaderCells :: triples.map (fun t => t.1) ++
      [totalsRow names.length (triples.map (fun t => t.2.1)) (triples.map (fun t => t.2.2))]⟩
  pure ⟨wb2.sheets.map (fun p => if p.1 == "Summary" then ("Summary", summary) else p)⟩

def countModuleSheets (wb : Workbook) : Nat :=
  (wb.sheetNames.filter (fun n => strStarts "Module_" n)).length

/-- write_to_excel with its try/except and the post-save update of
modules_completed (lines 560-565): on success the file holds the new workbook
and the counter becomes the number of module sheets present; on any failure
the messagebox is shown and session and file are untouched.  The Bool reports
success. -/
def writeToExcel (s : SessionModel) (disk : Option Workbook) :
    SessionModel × Option Workbook × Bool :=
  match writeToExcelCore s disk with
  | .ok wb => ({s with modules_completed := countModuleSheets wb}, some wb, true)
  | .error _ => (s, disk, false)

/- ===== user actions, with the number of write_to_excel invocations each one
   performs recorded in persistCalls ===== -/

structure ActionResult where
  session : SessionModel
  disk : Option Workbook
  persistCalls : Nat
deriving DecidableEq, Repr

/-- The Save Module Data button, i.e. save_module_data with silent=False
(lines 347-416): validate, confirm missing battery codes with the user
(`confirmMissing` is the dialog answer), buffer, then call write_to_excel. -/
def saveAction (s : SessionModel) (disk : Option Workbook) (now : String) (inp : SaveInput)
    (confirmMissing : Bool) : ActionResult :=
  match buildRows s now inp.moduleCode inp.rows with
  | .error _ => ⟨s, disk, 0⟩
  | .ok rows =>
    if hasMissingCodes inp.rows && !confirmMissing then ⟨s, disk, 0⟩
    else
      let md := dictSet s.module_data s.current_module_index ⟨inp.moduleCode, rows⟩
      let s1 := {s with module_data := md}
      let r := writeToExcel s1 disk
      ⟨r.1, r.2.1, 1⟩

/-- The Previous Module button: prev_module never calls write_to_excel. -/
def prevAction (s : SessionModel) (disk : Option Workbook) (now : String) (inp : SaveInput) :
    ActionResult :=
  ⟨prevModule s now inp, disk, 0⟩

/-- The Next Module button: next_module never calls write_to_excel. -/
def nextAction (s : SessionModel) (disk : Option Workbook) (now : String) (inp : SaveInput) :
    ActionResult :=
  ⟨nextModule s now inp, disk, 0⟩

/-- finish_session (lines 418-429): silent save (abort on validation failure),
optional confirmation when not all modules are completed (`confirmFinish` is
the dialog answer), then write_to_excel. -/
def finishAction (s : SessionModel) (disk : Option Workbook) (now : String) (inp : SaveInput)
    (confirmFinish : Bool) : ActionResult :=
  match saveModuleDataS s now inp with
  | (_, some _) => ⟨s, disk, 0⟩
  | (s1, none) =>
    if s1.modules_completed < s1.num_modules && !confirmFinish then ⟨s1, disk, 0⟩
    else
      let r := writeToExcel s1 disk
      ⟨r.1, r.2.1, 1⟩

/- ===== load_workbook (lines 118-152) ===== -/

/-- Error-propagating map over a list, i.e. a Python list comprehension whose
body may raise. -/
def mapME {ε α β : Type} (f : α → Except ε β) : List α → Except ε (List β)
  | [] => .ok []
  | a :: t =>
    match f a with
    | .error e => .error e
    | .ok b =>
      match mapME f t with
      | .error e => .error e
      | .ok bs => .ok (b :: bs)

/-- Lines 124-129: the parsed index of every sheet whose name starts with
`Module_`; a parse failure is the uncaught ValueError that becomes the
LoadError of the surrounding try/except. -/
def moduleIndicesE (wb : Workbook) : Except Unit (List Int) :=
  mapME
    (fun n =>
      match (secondSeg n).bind parseInt? with
      | some v => Except.ok v
      | none => Except.error ())
    (wb.sheetNames.filter (fun n => strStarts "Module_" n))

/-- Line 129: `max(indices)`, or 0 when there is no module sheet. -/
def highestIndex (l : List Int) : Int :=
  match l with
  | [] => 0
  | a :: t => t.foldl max a

/-- The text that ends up in a tkinter entry for a summary cell value (exact
for string cells, which is the only case the claims exercise; the decimal
rendering of numeric cells is abstracted as num/den). -/
def cellStr : Cell → String
  | some (.s v) => v
  | some (.i v) => intStr v
  | some (.q v) => intStr v.num ++ "/" ++ natStr v.den
  | none => "nan"

/-- Lines 134-135: `df.loc[0, col] if col in df.columns else ""`; with the
column present but no first data row, `.loc[0, ...]` raises (LoadError). -/
def extractPackField (df : DF) (col : String) : Except Unit String :=
  match colIdx df.header col with
  | none => .ok ""
  | some j =>
    match df.data with
    | [] => .error ()
    | r0 :: _ => .ok (cellStr (r0.getD j none))

/-- Lines 132-138: pack name and code from the Summary sheet when present,
blank entries otherwise. -/
def summaryFieldsE (wb : Workbook) : Except Unit (String × String) :=
  if wb.hasSheet "Summary" then
    match readExcelDisk (some wb) "Summary" with
    | .error _ => .error ()
    | .ok df =>
      match extractPackField df "PackName" with
      | .error _ => .error ()
      | .ok pn =>
        match extractPackField df "PackCode" with
        | .error _ => .error ()
        | .ok pc => .ok (pn, pc)
  else .ok ("", "")

/-- The state load_workbook leaves behind on success. -/
structure LoadedState where
  currentModuleIndex : Int
  packNameEntry : String
  packCodeEntry : String
deriving DecidableEq, Repr

/-- load_workbook (lines 118-152): highest `Module_` index plus one becomes
the current module index; pack fields come from an optional Summary sheet;
any exception in the try block surfaces as a LoadError. -/
def loadWorkbookModel (wb : Workbook) : Except Unit LoadedState :=
  match moduleIndicesE wb with
  | .error _ => .error ()
  | .ok idxs =>
    match summaryFieldsE wb with
    | .error _ => .error ()
    | .ok pnpc => .ok ⟨highestIndex idxs + 1, pnpc.1, pnpc.2⟩

/-- The session after a successful load followed by the user entering the
module counts (load_workbook then validate_pack_setup(loaded=True)): the
loaded index is kept verbatim, whatever num_modules the user supplies. -/
def sessionAfterLoad (wb : Workbook) (pn pc : String) (nm cpm : Nat) :
    Except Unit SessionModel :=
  (loadWorkbookModel wb).map (fun st => ⟨pn, pc, nm, cpm, 0, st.currentModuleIndex.toNat, []⟩)

/- ===== concrete scenario states ===== -/

/-- A two-module session about to be navigated away from module 1. -/
def c1session : SessionModel := ⟨"Pack_A1", "PKA1-2025-0828", 2, 1, 0, 1, []⟩

def c1input : SaveInput := ⟨"M1", [⟨1, "B1", .num q12_5, .num q3_7, ""⟩]⟩

/-- A session already holding module 1 with module code NEW and two rows,
about to be persisted over a disk file whose Module_001 sheet still carries
module code OLD and a single data row. -/
def c2r1 : DataRow := ⟨"t1", "P", "PC", 1, "NEW", 1, "B1", some q12_5, some q3_7, ""⟩

def c2r2 : DataRow := ⟨"t1", "P", "PC", 1, "NEW", 2, "B2", some q13_1, some q3_65, ""⟩

def c2oldRow : List Cell :=
  [some (.s "t_old"), some (.s "P"), some (.s "PC"), some (.i 1), some (.s "OLD"),
   some (.i 1), some (.s "B9"), some (.q q12_5), some (.q q3_7), some (.s "n")]

def c2disk : Workbook := ⟨[("Module_001", ⟨[moduleHeaderCells, c2oldRow]⟩)]⟩

def c2session : SessionModel := ⟨"P", "PC", 1, 2, 0, 1, [(1, ⟨"NEW", [c2r1, c2r2]⟩)]⟩

/-- A fresh one-module session (new file, nothing on disk yet) and the exact
rows of the round-trip scenario. -/
def c3session0 : SessionModel := ⟨"Pack_A1", "PKA1-2025-0828", 1, 2, 0, 1, []⟩

def c3rows : List CellRowIn :=
  [⟨1, "B1", .num q12_5, .num q3_7, ""⟩, ⟨2, "B2", .num q13_1, .num q3_65, ""⟩]

def c3buffered : SessionModel := (saveModuleDataS c3session0 "t0" ⟨"M1", c3rows⟩).1

/-- A session holding module 1 (code M1, two rows) persisted twice over a disk
file whose Module_001 sheet holds a header and one data row. -/
def c4r1 : DataRow := ⟨"t1", "P", "PC", 1, "M1", 1, "B1", some q12_5, some q3_7, ""⟩

def c4r2 : DataRow := ⟨"t1", "P", "PC", 1, "M1", 2, "B2", some q13_1, some q3_65, ""⟩

def c4oldRow : List Cell :=
  [some (.s "t_old"), some (.s "P"), some (.s "PC"), some (.i 1), some (.s "M1"),
   some (.i 1), some (.s "B1"), some (.q q12_5), some (.q q3_7), some (.s "n")]

def c4disk : Workbook := ⟨[("Module_001", ⟨[moduleHeaderCells, c4oldRow]⟩)]⟩

def c4session : SessionModel := ⟨"P", "PC", 1, 2, 0, 1, [(1, ⟨"M1", [c4r1, c4r2]⟩)]⟩

def c4wb1 : Workbook := (writeToExcelCore c4session (some c4disk)).toOption.getD ⟨[]⟩

def c4wb2 : Workbook := (writeToExcelCore c4session (some c4wb1)).toOption.getD ⟨[]⟩

/-- A valid first row followed by a row whose IR field reads "-5". -/
def c6row1 : CellRowIn := ⟨1, "B1", .num q12_5, .num q3_7, ""⟩

def c6rowBad : CellRowIn := ⟨2, "B2", .num (-5), .empty, ""⟩

def c6session : SessionModel := ⟨"P", "PC", 2, 2, 0, 1, [(2, ⟨"M2", []⟩)]⟩

/-- A session whose buffer is nonempty while nothing exists on disk: its
persist fails (at the summary re-read), exercising the error path. -/
def c7session : SessionModel := ⟨"P", "PC", 1, 1, 0, 1, [(1, ⟨"M", []⟩)]⟩

/-- The loaded workbook of the load scenario: sheets Module_001 and
Module_002, no Summary sheet. -/
def c8wb : Workbook := ⟨[("Module_001", ⟨[]⟩), ("Module_002", ⟨[]⟩)]⟩

/-- A completed two-module workbook reloaded by a user entering the original
num_modules = 2. -/
def c9wb : Workbook := ⟨[("Module_001", ⟨[]⟩), ("Module_002", ⟨[]⟩)]⟩

def c9loaded : SessionModel := ⟨"P", "PC", 2, 4, 0, 3, []⟩

/-- A workbook with a Module_-prefixed sheet whose suffix is not numeric. -/
def c10wb : Workbook := ⟨[("Module_X", ⟨[]⟩)]⟩

def c10okwb : Workbook := ⟨[("Module_007", ⟨[]⟩)]⟩

/- ===== helper lemmas ===== -/

theorem isOk_ok {ε α : Type} (x : α) : (Except.ok x : Except ε α).isOk = true := rfl

theorem isOk_error {ε α : Type} (e : ε) : (Except.error e : Except ε α).isOk = false := rfl

theorem saveS_current (s : SessionModel) (now : String) (inp : SaveInput) :
    (saveModuleDataS s now inp).1.current_module_index = s.current_module_index := by
  cases h : buildRows s now inp.moduleCode inp.rows <;> simp [saveModuleDataS, h]

theorem saveS_num (s : SessionModel) (now : String) (inp : SaveInput) :
    (saveModuleDataS s now inp).1.num_modules = s.num_modules := by
  cases h : buildRows s now inp.moduleCode inp.rows <;> simp [saveModuleDataS, h]

theorem saveS_completed (s : SessionModel) (now : String) (inp : SaveInput) :
    (saveModuleDataS s now inp).1.modules_completed = s.modules_completed := by
  cases h : buildRows s now inp.moduleCode inp.rows <;> simp [saveModuleDataS, h]

theorem dictSet_mem (l : List (Nat × ModuleRecord)) (k : Nat) (v : ModuleRecord) :
    ∀ p ∈ dictSet l k v, p.1 = k ∨ p ∈ l := by
  intro p hp
  unfold dictSet at hp
  split at hp
  · obtain ⟨x, hx, hxp⟩ := List.mem_map.1 hp
    by_cases hk : x.1 == k
    · rw [if_pos hk] at hxp
      left
      rw [← hxp]
    · rw [if_neg hk] at hxp
      right
      rw [← hxp]
      exact hx
  · rcases List.mem_append.1 hp with h | h
    · right
      exact h
    · left
      simp only [List.mem_singleton] at h
      rw [h]

theorem saveS_inv (s : SessionModel) (now : String) (inp : SaveInput) (h : SessionInv s) :
    SessionInv ((saveModuleDataS s now inp).1) := by
  cases hb : buildRows s now inp.moduleCode inp.rows with
  | error e => simpa [saveModuleDataS, hb] using h
  | ok rows =>
    refine ⟨?_, ?_, ?_⟩ <;> simp only [saveModuleDataS, hb]
    · exact h.1
    · exact h.2.1
    · intro p hp
      rcases dictSet_mem s.module_data s.current_module_index ⟨inp.moduleCode, rows⟩ p hp with
        hk | hm
      · rw [hk]
        exact ⟨h.1, h.2.1⟩
      · exact h.2.2 p hm

theorem validateCell_error_cellIndex (r : CellRowIn) (e : ValErr)
    (h : validateCell r = .error e) : e.cellIndex = r.cellIndex := by
  unfold validateCell at h
  split at h
  · injection h with h2
    rw [← h2]
    rfl
  · split at h
    · injection h with h2
      rw [← h2]
      rfl
    · split at h
      · injection h with h2
        rw [← h2]
        rfl
      · split at h
        · injection h with h2
          rw [← h2]
          rfl
        · exact absurd h (by simp)

theorem buildRows_append_error (s : SessionModel) (now mcode : String)
    (pre post : List CellRowIn) (r : CellRowIn)
    (hpre : ∀ x ∈ pre, (validateCell x).isOk = true)
    (hr : (validateCell r).isOk = false) :
    ∃ e, buildRows s now mcode (pre ++ r :: post) = .error e ∧ validateCell r = .error e := by
  induction pre with
  | nil =>
    cases hv : validateCell r with
    | error e =>
      exact ⟨e, by simp [buildRows, hv], rfl⟩
    | ok v =>
      rw [hv] at hr
      exact absurd hr (by simp [isOk_ok])
  | cons x t ih =>
    have hx := hpre x (by simp)
    cases hvx : validateCell x with
    | error e =>
      rw [hvx] at hx
      exact absurd hx (by simp [isOk_error])
    | ok v =>
      obtain ⟨e, he, hve⟩ := ih (fun y hy => hpre y (by simp [hy]))
      refine ⟨e, ?_, hve⟩
      simp only [List.cons_append, List.append_eq, buildRows, hvx, he]

theorem mapME_isOk {α β : Type} (f : α → Except Unit β) (l : List α) :
    (mapME f l).isOk = true ↔ ∀ x ∈ l, (f x).isOk = true := by
  induction l with
  | nil => simp [mapME, isOk_ok]
  | cons a t ih =>
    cases hfa : f a with
    | error e =>
      simp only [mapME, hfa, isOk_error]
      constructor
      · intro h
        exact absurd h (by simp)
      · intro h
        have hh := h a (by simp)
        rw [hfa] at hh
        exact absurd hh (by simp [isOk_error])
    | ok b =>
      cases hmt : mapME f t with
      | error e =>
        simp only [mapME, hfa, hmt, isOk_error]
        constructor
        · intro h
          exact absurd h (by simp)
        · intro h
          have ht : ∀ x ∈ t, (f x).isOk = true := fun x hx => h x (by simp [hx])
          have hh := ih.2 ht
          rw [hmt] at hh
          exact absurd hh (by simp [isOk_error])
      | ok bs =>
        simp only [mapME, hfa, hmt, isOk_ok, true_iff]
        intro x hx
        rcases List.mem_cons.1 hx with hxa | hxt
        · rw [hxa, hfa]
          rfl
        · have hh := ih.1 (by rw [hmt]; rfl)
          exact hh x hxt

/- ===== C1 ===== -/

/-- C1 counterexample: from a fresh two-module session, navigate(next)
silently buffers module 1 (the buffer gains key 1 and the index moves to 2)
but performs zero write_to_excel invocations and leaves the file nonexistent,
contradicting the claim that every navigation triggers a persist. -/
theorem c1_counterexample :
    (nextAction c1session none "t0" c1input).persistCalls = 0 ∧
    (nextAction c1session none "t0" c1input).disk = none ∧
    (nextAction c1session none "t0" c1input).session.current_module_index = 2 ∧
    (nextAction c1session none "t0" c1input).session.module_data.map (fun p => p.1) = [1] := by
  decide

/-- C1 (amended): navigation never invokes the Workbook Exporter — it only
buffers silently and leaves the file untouched — while an explicit save (valid
rows, missing-code warning absent or confirmed) and a finish (silent save
valid, completion confirmed or unneeded) each invoke write_to_excel exactly
once. -/
theorem c1_persist_on_save_and_finish (s : SessionModel) (disk : Option Workbook)
    (now : String) (inp : SaveInput) (cm cf : Bool) :
    (prevAction s disk now inp).persistCalls = 0 ∧
    (prevAction s disk now inp).disk = disk ∧
    (nextAction s disk now inp).persistCalls = 0 ∧
    (nextAction s disk now inp).disk = disk ∧
    ((buildRows s now inp.moduleCode inp.rows).isOk = true →
      (hasMissingCodes inp.rows = false ∨ cm = true) →
      (saveAction s disk now inp cm).persistCalls = 1) ∧
    ((saveModuleDataS s now inp).2 = none →
      (s.num_modules ≤ s.modules_completed ∨ cf = true) →
      (finishAction s disk now inp cf).persistCalls = 1) := by
  refine ⟨rfl, rfl, rfl, rfl, ?_, ?_⟩
  · intro h1 h2
    cases hb : buildRows s now inp.moduleCode inp.rows with
    | error e =>
      rw [hb] at h1
      exact absurd h1 (by simp [isOk_error])
    | ok rows =>
      have hcond : (hasMissingCodes inp.rows && !cm) = false := by
        rcases h2 with h | h <;> simp [h]
      simp [saveAction, hb, hcond]
  · intro h1 h2
    have hcomp := saveS_completed s now inp
    have hnum := saveS_num s now inp
    rcases hp : saveModuleDataS s now inp with ⟨s1, o⟩
    rw [hp] at h1
    simp only at h1
    subst h1
    rw [hp] at hcomp hnum
    simp only at hcomp hnum
    have hcond : (s1.modules_completed < s1.num_modules && !cf) = false := by
      rcases h2 with h | h
      · have : ¬ s1.modules_completed < s1.num_modules := by omega
        simp [this]
      · simp [h]
    simp [finishAction, hp, hcond]

/-- C1 witness: the amended persist triggers at a concrete session. -/
theorem c1_persist_witness :
    (saveAction c1session none "t0" c1input true).persistCalls = 1 ∧
    (finishAction c1session none "t0" c1input true).persistCalls = 1 :=
  ⟨(c1_persist_on_save_and_finish c1session none "t0" c1input true true).2.2.2.2.1
      (by decide) (Or.inr rfl),
   (c1_persist_on_save_and_finish c1session none "t0" c1input true true).2.2.2.2.2
      (by decide) (Or.inr rfl)⟩

/- ===== C2 ===== -/

/-- C2: during a successful persist over an existing file, the summary row is
sourced from the on-disk sheet as it was before this persist (write_to_excel
re-reads the file before wb.save): the summary shows module code OLD and cell
count 1 although the sheet just written in the same persist call carries
module code NEW with 2 buffered rows — the claim that the summary figures
equal the data just written fails. -/
theorem c2_summary_reads_stale_disk :
    (writeToExcelCore c2session (some c2disk)).map
        (fun wb => ((wb.get? "Summary").getD ⟨[]⟩).cellAt 2 2) = .ok (some (.s "OLD")) ∧
    (writeToExcelCore c2session (some c2disk)).map
        (fun wb => ((wb.get? "Summary").getD ⟨[]⟩).cellAt 2 3) = .ok (some (.i 1)) ∧
    (writeToExcelCore c2session (some c2disk)).map
        (fun wb => ((wb.get? "Module_001").getD ⟨[]⟩).cellAt 4 5) = .ok (some (.s "NEW")) ∧
    c2session.module_data.map (fun p => (p.2.module_code, p.2.dataframe.length)) =
      [("NEW", 2)] := by
  decide

/- ===== C3 ===== -/

/-- C3: the round-trip scenario fails in the code: buffering the two claim
rows succeeds, but the very first persist of a fresh session aborts (the
summary rebuild reads the output file from disk before wb.save has created
it), so no workbook is ever written and nothing can be loaded back. -/
theorem c3_roundtrip_fails :
    (saveModuleDataS c3session0 "t0" ⟨"M1", c3rows⟩).2 = none ∧
    c3buffered.module_data.map (fun p => p.1) = [1] ∧
    (writeToExcelCore c3buffered none).isOk = false ∧
    (writeToExcel c3buffered none).2.1 = none := by
  decide

/- ===== C4 ===== -/

/-- C4: persist is not idempotent: both persists succeed, but because
ws.append writes below the value-cleared grid, after the first persist the
module sheet's header sits at row 3 (row 1 is an empty cleared cell), after
the second at row 6, and the summary IR_AVG formula references
Module_001!H2:H5 after the first save but Module_001!H2:H8 after the second —
neither the header-at-row-1 layout nor the equal-ranges property holds. -/
theorem c4_append_below_cleared_rows :
    (writeToExcelCore c4session (some c4disk)).isOk = true ∧
    (writeToExcelCore c4session (some c4wb1)).isOk = true ∧
    ((c4wb1.get? "Module_001").getD ⟨[]⟩).cellAt 1 1 = none ∧
    ((c4wb1.get? "Module_001").getD ⟨[]⟩).cellAt 3 1 = some (.s "Timestamp") ∧
    ((c4wb2.get? "Module_001").getD ⟨[]⟩).cellAt 6 1 = some (.s "Timestamp") ∧
    ((c4wb1.get? "Summary").getD ⟨[]⟩).cellAt 2 4 = some (.s "=AVERAGE(Module_001!H2:H5)") ∧
    ((c4wb2.get? "Summary").getD ⟨[]⟩).cellAt 2 4 = some (.s "=AVERAGE(Module_001!H2:H8)") := by
  decide

/- ===== C5 ===== -/

/-- C5: boundary acceptance of the validation in save_module_data: OCV 0.0 and
6.0 are accepted, OCV -0.01 and 6.01 rejected as out of range, IR 0 rejected
as non-positive, IR 0.0001 accepted, and empty IR and OCV fields are treated
as absent and accepted. -/
theorem c5_boundary_acceptance (s : SessionModel) (now mcode : String) (i : Nat)
    (bc nt : String) :
    (saveModuleDataS s now ⟨mcode, [⟨i, bc, .empty, .num 0, nt⟩]⟩).2 = none ∧
    (saveModuleDataS s now ⟨mcode, [⟨i, bc, .empty, .num 6, nt⟩]⟩).2 = none ∧
    (saveModuleDataS s now ⟨mcode, [⟨i, bc, .empty, .num qm0_01, nt⟩]⟩).2 =
      some (.ocvOutOfRange i) ∧
    (saveModuleDataS s now ⟨mcode, [⟨i, bc, .empty, .num q6_01, nt⟩]⟩).2 =
      some (.ocvOutOfRange i) ∧
    (saveModuleDataS s now ⟨mcode, [⟨i, bc, .num 0, .empty, nt⟩]⟩).2 =
      some (.irNotPositive i) ∧
    (saveModuleDataS s now ⟨mcode, [⟨i, bc, .num q0_0001, .empty, nt⟩]⟩).2 = none ∧
    (saveModuleDataS s now ⟨mcode, [⟨i, bc, .empty, .empty, nt⟩]⟩).2 = none :=
  ⟨rfl, rfl, rfl, rfl, rfl, rfl, rfl⟩

/- ===== C6 ===== -/

/-- C6: fail-fast atomicity of the validation in save_module_data: whatever
the prior buffer state, a batch whose first offending row is r (rows before it
valid, r failing the parse, the IR > 0 check or the OCV range check) aborts
with an error carrying r's cell index, and the session — in particular
module_data — is returned exactly as it was. -/
theorem c6_fail_fast_atomic (s : SessionModel) (now mcode : String)
    (pre post : List CellRowIn) (r : CellRowIn)
    (hpre : ∀ x ∈ pre, (validateCell x).isOk = true)
    (hr : (validateCell r).isOk = false) :
    ∃ e, saveModuleDataS s now ⟨mcode, pre ++ r :: post⟩ = (s, some e) ∧
      e.cellIndex = r.cellIndex := by
  obtain ⟨e, he, hve⟩ := buildRows_append_error s now mcode pre post r hpre hr
  exact ⟨e, by simp [saveModuleDataS, he], validateCell_error_cellIndex r e hve⟩

/-- C6 witness: a batch whose second row has IR text "-5" aborts with an error
naming cell 2 and leaves the prior buffer untouched. -/
theorem c6_fail_fast_witness :
    ∃ e, saveModuleDataS c6session "t0" ⟨"M1", [c6row1] ++ c6rowBad :: []⟩ =
      (c6session, some e) ∧ e.cellIndex = c6rowBad.cellIndex :=
  c6_fail_fast_atomic c6session "t0" "M1" [c6row1] [] c6rowBad (by decide) (by decide)

/- ===== C7 ===== -/

/-- C7: persist error atomicity for the completion counter: write_to_excel
never touches module_data; on a failed persist the session (and the file) are
returned unchanged, and only on a successful save is modules_completed set to
the number of module sheets present in the saved workbook. -/
theorem c7_completed_counter (s : SessionModel) (d : Option Workbook) :
    (writeToExcel s d).1.module_data = s.module_data ∧
    ((writeToExcelCore s d).isOk = false → writeToExcel s d = (s, d, false)) ∧
    (∀ wb, writeToExcelCore s d = .ok wb →
      writeToExcel s d = ({s with modules_completed := countModuleSheets wb}, some wb, true)) := by
  cases h : writeToExcelCore s d with
  | ok wb =>
    refine ⟨by simp [writeToExcel, h], ?_, ?_⟩
    · intro hf
      exact absurd hf (by simp [isOk_ok])
    · intro wb2 h2
      injection h2 with h3
      rw [← h3]
      simp [writeToExcel, h]
  | error e =>
    refine ⟨by simp [writeToExcel, h], fun _ => by simp [writeToExcel, h], ?_⟩
    intro wb2 h2
    exact absurd h2 (by simp)

/-- C7 witness: a concrete failing persist (nonempty buffer, no file on disk)
leaves the session and the missing file exactly as they were. -/
theorem c7_completed_counter_witness :
    (writeToExcel c7session none).1.module_data = c7session.module_data ∧
    writeToExcel c7session none = (c7session, none, false) :=
  ⟨(c7_completed_counter c7session none).1,
   (c7_completed_counter c7session none).2.1 (by decide)⟩

/- ===== C8 ===== -/

/-- C8: loading a workbook with sheets Module_001 and Module_002 and no
Summary sheet sets current_module_index to 3 and leaves both pack fields
blank; in general a successful load sets the index to the highest parsed
module index plus one. -/
theorem c8_load_sets_next_index :
    loadWorkbookModel c8wb = .ok ⟨3, "", ""⟩ ∧
    ∀ (wb : Workbook) (idxs : List Int) (st : LoadedState),
      moduleIndicesE wb = .ok idxs → loadWorkbookModel wb = .ok st →
      st.currentModuleIndex = highestIndex idxs + 1 := by
  refine ⟨by decide, ?_⟩
  intro wb idxs st h1 h2
  unfold loadWorkbookModel at h2
  rw [h1] at h2
  cases h3 : summaryFieldsE wb with
  | error e =>
    rw [h3] at h2
    exact absurd h2 (by simp)
  | ok pnpc =>
    rw [h3] at h2
    injection h2 with h4
    rw [← h4]

/-- C8 witness: the general highest-plus-one law applied at the concrete
two-module workbook. -/
theorem c8_load_witness :
    (⟨3, "", ""⟩ : LoadedState).currentModuleIndex = highestIndex [1, 2] + 1 :=
  c8_load_sets_next_index.2 c8wb [1, 2] ⟨3, "", ""⟩ (by decide) c8_load_sets_next_index.1

/- ===== C9 ===== -/

/-- C9 counterexample: loading a completed two-module workbook and entering
the original num_modules = 2 initializes a session with
current_module_index = 3, violating the claimed invariant
current_module_index ≤ num_modules. -/
theorem c9_counterexample :
    sessionAfterLoad c9wb "P" "PC" 2 4 = .ok c9loaded ∧ ¬ SessionInv c9loaded := by
  constructor
  · decide
  · intro h
    exact absurd h.2.1 (by decide)

/-- C9 (amended): for sessions created by initializePack the invariant holds
and every operation preserves it, and navigation moves the index by exactly
one inside the bounds and is a no-op at them; sessions created by the load
path may start outside the bounds. -/
theorem c9_invariant_from_init :
    (∀ (name code : String) (nm cpm : Int) (s0 : SessionModel),
      initializePack name code nm cpm = some s0 → SessionInv s0) ∧
    (∀ (s : SessionModel) (now : String) (inp : SaveInput) (d : Option Workbook),
      SessionInv s →
      SessionInv (nextModule s now inp) ∧ SessionInv (prevModule s now inp) ∧
      SessionInv ((saveModuleDataS s now inp).1) ∧ SessionInv ((writeToExcel s d).1) ∧
      (s.current_module_index < s.num_modules →
        (nextModule s now inp).current_module_index = s.current_module_index + 1) ∧
      (s.num_modules ≤ s.current_module_index → nextModule s now inp = s) ∧
      (1 < s.current_module_index →
        (prevModule s now inp).current_module_index = s.current_module_index - 1) ∧
      (s.current_module_index ≤ 1 → prevModule s now inp = s)) := by
  constructor
  · intro name code nm cpm s0 h
    unfold initializePack at h
    split at h
    · exact absurd h (by simp)
    · injection h with h2
      rw [← h2]
      rename_i hcond
      push_neg at hcond
      refine ⟨le_refl 1, ?_, ?_⟩
      · show 1 ≤ nm.toNat
        have := hcond.2.2.1
        omega
      · intro p hp
        exact absurd hp (by simp)
  · intro s now inp d hInv
    have hsc := saveS_current s now inp
    have hsn := saveS_num s now inp
    have hsi := saveS_inv s now inp hInv
    refine ⟨?_, ?_, hsi, ?_, ?_, ?_, ?_, ?_⟩
    · by_cases h : s.current_module_index < s.num_modules
      · simp only [nextModule, if_pos h]
        refine ⟨?_, ?_, ?_⟩
        · show 1 ≤ (saveModuleDataS s now inp).1.current_module_index + 1
          omega
        · show (saveModuleDataS s now inp).1.current_module_index + 1 ≤
            (saveModuleDataS s now inp).1.num_modules
          rw [hsc, hsn]
          omega
        · intro p hp
          exact hsi.2.2 p hp
      · simp only [nextModule, if_neg h]
        exact hInv
    · by_cases h : 1 < s.current_module_index
      · simp only [prevModule, if_pos h]
        refine ⟨?_, ?_, ?_⟩
        · show 1 ≤ (saveModuleDataS s now inp).1.current_module_index - 1
          rw [hsc]
          omega
        · show (saveModuleDataS s now inp).1.current_module_index - 1 ≤
            (saveModuleDataS s now inp).1.num_modules
          rw [hsc, hsn]
          have := hInv.2.1
          omega
        · intro p hp
          exact hsi.2.2 p hp
      · simp only [prevModule, if_neg h]
        exact hInv
    · cases hc : writeToExcelCore s d <;> simp [writeToExcel, hc] <;> exact hInv
    · intro h
      simp only [nextModule, if_pos h]
      show (saveModuleDataS s now inp).1.current_module_index + 1 = s.current_module_index + 1
      rw [hsc]
    · intro h
      have hnot : ¬ s.current_module_index < s.num_modules := by omega
      simp [nextModule, hnot]
    · intro h
      simp only [prevModule, if_pos h]
      show (saveModuleDataS s now inp).1.current_module_index - 1 = s.current_module_index - 1
      rw [hsc]
    · intro h
      have hnot : ¬ 1 < s.current_module_index := by omega
      simp [prevModule, hnot]

/-- C9 witness: the amended invariant applied at a concrete fresh session. -/
theorem c9_invariant_witness :
    SessionInv (nextModule c1session "t0" c1input) ∧
    (nextModule c1session "t0" c1input).current_module_index =
      c1session.current_module_index + 1 := by
  have hinv : SessionInv c1session :=
    ⟨by decide, by decide, fun p hp => absurd hp (List.not_mem_nil p)⟩
  have h := c9_invariant_from_init.2 c1session "t0" c1input none hinv
  exact ⟨h.1, h.2.2.2.2.1 (by decide)⟩

/- ===== C10 ===== -/

/-- C10 counterexample: a workbook containing a sheet named Module_X (the
Module_ prefix with a non-numeric suffix) makes load_workbook fail with a
LoadError instead of being tolerated. -/
theorem c10_counterexample : loadWorkbookModel c10wb = .error () := by decide

/-- C10 (amended): a load succeeds exactly when every Module_-prefixed sheet
name has an integer suffix and the Summary-sheet pack-field extraction
succeeds (in particular a PackName or PackCode header with no data row below
it also raises); when no Summary sheet is present, the load succeeds with
blank pack fields. -/
theorem c10_load_tolerance (wb : Workbook) :
    ((loadWorkbookModel wb).isOk = true ↔
      (∀ n ∈ wb.sheetNames, strStarts "Module_" n = true →
        ((secondSeg n).bind parseInt?).isSome = true) ∧
      (summaryFieldsE wb).isOk = true) ∧
    (∀ idxs, moduleIndicesE wb = .ok idxs → wb.hasSheet "Summary" = false →
      loadWorkbookModel wb = .ok ⟨highestIndex idxs + 1, "", ""⟩) := by
  constructor
  · have hmain : (loadWorkbookModel wb).isOk = true ↔
        (moduleIndicesE wb).isOk = true ∧ (summaryFieldsE wb).isOk = true := by
      unfold loadWorkbookModel
      cases h1 : moduleIndicesE wb <;> cases h2 : summaryFieldsE wb <;>
        simp [isOk_ok, isOk_error]
    rw [hmain]
    have hidx : (moduleIndicesE wb).isOk = true ↔
        ∀ n ∈ wb.sheetNames, strStarts "Module_" n = true →
          ((secondSeg n).bind parseInt?).isSome = true := by
      unfold moduleIndicesE
      rw [mapME_isOk]
      constructor
      · intro h n hn hpref
        have hh := h n (List.mem_filter.2 ⟨hn, hpref⟩)
        cases hs : (secondSeg n).bind parseInt? with
        | none =>
          rw [hs] at hh
          exact absurd hh (by decide)
        | some v => rfl
      · intro h n hn
        have hmem := List.mem_filter.1 hn
        have hh := h n hmem.1 hmem.2
        cases hs : (secondSeg n).bind parseInt? with
        | none =>
          rw [hs] at hh
          exact absurd hh (by decide)
        | some v => rfl
    rw [hidx]
  · intro idxs h1 h2
    unfold loadWorkbookModel
    rw [h1]
    have h3 : summaryFieldsE wb = .ok ("", "") := by
      unfold summaryFieldsE
      rw [h2]
      simp
    rw [h3]

/-- C10 witness: a workbook whose only sheet is Module_007 and that has no
Summary sheet loads successfully with blank pack fields and index 8. -/
theorem c10_load_witness : loadWorkbookModel c10okwb = .ok ⟨8, "", ""⟩ :=
  (c10_load_tolerance c10okwb).2 [7] (by decide) (by decide)

end IROCV
